import Mathlib

/-!
Verification of the Automagixx chatbot server (src/server.js) against its
natural-language specification.  The executable parts of the server that the
specification describes — the tenant configuration store, the intent
classifier, the system-prompt composer, the chat-message orchestration, the
conversation upsert, and the analytics aggregation — are embedded below as
pure Lean functions over explicit state, and the specified properties are
proved (or refuted) about them.  External collaborators (the completion
provider, the durable message store) are passed in as explicit inputs, as the
specification treats them as abstract interfaces.
-/

/-- The single-quote character, written via its code point. -/
def quoteChar : Char := Char.ofNat 39

/-- The single-quote character as a one-character string. -/
def quoteStr : String := String.singleton quoteChar

/-- ASCII lower-casing of one character, as JS `toLowerCase` acts on the
ASCII range (the keyword matching in server.js only involves ASCII). -/
def lowChar (c : Char) : Char :=
  if 'A' ≤ c ∧ c ≤ 'Z' then Char.ofNat (c.toNat + 32) else c

/-- Lower-casing of a string, modelling `userMessage.toLowerCase()`
(server.js line 641). -/
def lowStr (s : String) : String := ⟨s.data.map lowChar⟩

/-- `p` is a prefix of `s`, over character lists. -/
def prefixOf : List Char → List Char → Bool
  | [], _ => true
  | _ :: _, [] => false
  | a :: as, b :: bs => if a = b then prefixOf as bs else false

/-- `p` occurs as a contiguous sublist of the second argument. -/
def infixOf (p : List Char) : List Char → Bool
  | [] => prefixOf p []
  | b :: bs => prefixOf p (b :: bs) || infixOf p bs

/-- JS `s.includes(pat)`: `pat` occurs as a substring of `s`. -/
def strContains (s pat : String) : Bool := infixOf pat.data s.data

/-- Tenant customization object.  In the JS request body and the stored
config each field of the object may be absent, hence `Option`. -/
structure Customization where
  primaryColor : Option String
  accentColor : Option String
  welcomeMessage : Option String
deriving DecidableEq

/-- A stored tenant configuration, as assembled by
POST /api/admin/create-chatbot (server.js lines 585-598). -/
structure TenantConfig where
  id : String
  clientName : String
  businessName : String
  businessInfo : String
  knowledgeBase : String
  customization : Customization
  createdAt : String
  active : Bool
deriving DecidableEq

/-- The default customization object built when the creation request carries
no customization (server.js lines 591-595). -/
def defaultCustomization (businessName : String) : Customization :=
  { primaryColor := some "#E53935"
    accentColor := some "#26C6DA"
    welcomeMessage := some ("Aloha! 🌺 I" ++ quoteStr ++
      "m here to help with any questions about " ++ businessName ++
      ". What would you like to know?") }

/-- The request body of POST /api/admin/create-chatbot (server.js line 581). -/
structure CreateInput where
  clientName : String
  businessName : String
  businessInfo : String
  knowledgeBase : String
  customization : Option Customization
deriving DecidableEq

/-- The TenantConfig built by POST /api/admin/create-chatbot (server.js
lines 583-598).  `nowMs` is `Date.now()` rendered as a string, `rand` the
random id suffix, `nowIso` is `new Date().toISOString()`.  The JS expression
`customization OR-ELSE defaults` picks the default exactly when the request body has
no (truthy) customization object. -/
def createConfig (nowMs rand nowIso : String) (input : CreateInput) : TenantConfig :=
  { id := "bot_" ++ nowMs ++ "_" ++ rand
    clientName := input.clientName
    businessName := input.businessName
    businessInfo := input.businessInfo
    knowledgeBase := input.knowledgeBase
    customization := input.customization.getD (defaultCustomization input.businessName)
    createdAt := nowIso
    active := true }

/-- `chatbotConfigs.get` (JS Map lookup, server.js lines 27 and 622).  The
Map is modelled as an insertion-ordered list of configs with unique ids. -/
def storeGet : List TenantConfig → String → Option TenantConfig
  | [], _ => none
  | c :: rest, i => if c.id = i then some c else storeGet rest i

/-- Whether the store already holds a config with the given id. -/
def hasId : List TenantConfig → String → Bool
  | [], _ => false
  | c :: rest, i => if c.id = i then true else hasId rest i

/-- `chatbotConfigs.set` (JS Map insert-or-replace, server.js line 600). -/
def storeSet (s : List TenantConfig) (cfg : TenantConfig) : List TenantConfig :=
  if hasId s cfg.id then s.map (fun c => if c.id = cfg.id then cfg else c)
  else s ++ [cfg]

/-- The per-config projection served by GET /api/admin/chatbots
(server.js lines 798-804); it has exactly these five fields. -/
structure ChatbotSummary where
  id : String
  clientName : String
  businessName : String
  createdAt : String
  active : Bool
deriving DecidableEq

/-- The projection applied to each stored config by GET /api/admin/chatbots. -/
def summarize (c : TenantConfig) : ChatbotSummary :=
  { id := c.id, clientName := c.clientName, businessName := c.businessName
    createdAt := c.createdAt, active := c.active }

/-- GET /api/admin/chatbots (server.js lines 797-806). -/
def listChatbots (s : List TenantConfig) : List ChatbotSummary := s.map summarize

/-- A concrete tenant configuration used to instantiate hypotheses of the
general theorems at a specific input. -/
def sampleConfig : TenantConfig :=
  { id := "bot_1_aaaa", clientName := "Client", businessName := "Test Inn"
    businessInfo := "Open 9-5", knowledgeBase := "Wifi free"
    customization := defaultCustomization "Test Inn"
    createdAt := "2024-01-01T00:00:00.000Z", active := true }

/-- A creation request whose customization object is present but omits the
accentColor and welcomeMessage fields (as the request issued by
src/create-hostel-bot.js omits accentColor). -/
def presetCustomizationInput : CreateInput :=
  { clientName := "My Hawaii Hostel", businessName := "My Hawaii Hostel"
    businessInfo := "info", knowledgeBase := "kb"
    customization := some { primaryColor := some "#0066FF", accentColor := none
                            welcomeMessage := none } }

/-- Replacing a config with the same id makes the lookup of that id return
the replacement. -/
theorem storeGet_map_replace (s : List TenantConfig) (cfg : TenantConfig)
    (h : hasId s cfg.id = true) :
    storeGet (s.map (fun c => if c.id = cfg.id then cfg else c)) cfg.id = some cfg := by
  induction s with
  | nil => simp [hasId] at h
  | cons c rest ih =>
    by_cases hc : c.id = cfg.id
    · simp [storeGet, hc]
    · have h' : hasId rest cfg.id = true := by simpa [hasId, hc] using h
      simpa [storeGet, hc] using ih h'

/-- Appending a fresh config makes the lookup of its id return it. -/
theorem storeGet_append_new (s : List TenantConfig) (cfg : TenantConfig)
    (h : hasId s cfg.id = false) :
    storeGet (s ++ [cfg]) cfg.id = some cfg := by
  induction s with
  | nil => simp [storeGet]
  | cons c rest ih =>
    by_cases hc : c.id = cfg.id
    · simp [hasId, hc] at h
    · have h' : hasId rest cfg.id = false := by simpa [hasId, hc] using h
      simpa [storeGet, hc] using ih h'

/-- Claim C3: for every tenant-creation input, looking the generated id up
in the store right after the creation stored the new config returns exactly
that stored config — never a not-found result. -/
theorem create_get_roundtrip (s : List TenantConfig) (nowMs rand nowIso : String)
    (input : CreateInput) :
    storeGet (storeSet s (createConfig nowMs rand nowIso input))
        (createConfig nowMs rand nowIso input).id
      = some (createConfig nowMs rand nowIso input) := by
  unfold storeSet
  by_cases h : hasId s (createConfig nowMs rand nowIso input).id = true
  · rw [if_pos h]
    exact storeGet_map_replace s _ h
  · rw [if_neg h]
    exact storeGet_append_new s _ (by simpa using h)

/-- Claim C4: every entry served by the admin list endpoint is the safe
five-field projection of some stored config, and that projection does not
depend on the businessInfo or knowledgeBase fields at all (so the list can
never expose them). -/
theorem list_safe_subset (s : List TenantConfig) :
    (∀ e ∈ listChatbots s, ∃ c ∈ s, e = summarize c) ∧
    (∀ (c : TenantConfig) (bi kb : String),
      summarize { c with businessInfo := bi, knowledgeBase := kb } = summarize c) := by
  constructor
  · intro e he
    rcases List.mem_map.mp he with ⟨c, hc, rfl⟩
    exact ⟨c, hc, rfl⟩
  · intro c bi kb
    rfl

/-- Claim C4, instantiated: the safe projection of the sample config is an
entry of the list over a one-config store, and arises from a stored config. -/
theorem list_safe_subset_witness :
    ∃ c ∈ [sampleConfig], summarize sampleConfig = summarize c :=
  (list_safe_subset [sampleConfig]).1 (summarize sampleConfig)
    (by simp [listChatbots])

/-- Claim C2 (amended): customization defaults are applied only when the
creation request carries no customization object at all; a present
customization object is stored as-is, so omitted fields inside it stay
absent rather than being filled with defaults. -/
theorem create_customization_defaults (nowMs rand nowIso : String) (input : CreateInput) :
    (input.customization = none →
      (createConfig nowMs rand nowIso input).customization
        = defaultCustomization input.businessName) ∧
    (∀ cz, input.customization = some cz →
      (createConfig nowMs rand nowIso input).customization = cz) := by
  constructor
  · intro h
    simp [createConfig, h]
  · intro cz h
    simp [createConfig, h]

/-- Claim C2, instantiated: a creation request with a present customization
object keeps that object unchanged. -/
theorem create_customization_defaults_witness :
    (createConfig "0" "r" "t" presetCustomizationInput).customization
      = { primaryColor := some "#0066FF", accentColor := none, welcomeMessage := none } :=
  (create_customization_defaults "0" "r" "t" presetCustomizationInput).2 _ rfl

/-- Claim C2 counterexample: for the concrete creation request whose
customization object is present but omits accentColor, the stored
customization does NOT get the default accentColor — the field simply stays
absent, refuting the claim that create fills defaults for each omitted
field of a present customization object. -/
theorem create_customization_counterexample :
    (createConfig "0" "r" "t" presetCustomizationInput).customization.accentColor = none ∧
    (defaultCustomization presetCustomizationInput.businessName).accentColor
      = some "#26C6DA" ∧
    (createConfig "0" "r" "t" presetCustomizationInput).customization.accentColor
      ≠ (defaultCustomization presetCustomizationInput.businessName).accentColor := by
  refine ⟨rfl, rfl, ?_⟩
  decide

/-- The intent flags computed from the inbound message
(server.js lines 640-644). -/
structure Intent where
  isPriceInquiry : Bool
  isAvailabilityInquiry : Bool
  isRoomInquiry : Bool
deriving DecidableEq

/-- Intent detection of POST /api/chat/:chatbotId/message (server.js lines
640-644): each flag is a disjunction of substring tests on the lower-cased
message. -/
def classifyIntent (userMessage : String) : Intent :=
  let lower := lowStr userMessage
  { isPriceInquiry := strContains lower "price" || strContains lower "cost" ||
      strContains lower "rate" || strContains lower "expensive"
    isAvailabilityInquiry := strContains lower "available" ||
      strContains lower "book" || strContains lower "reserve"
    isRoomInquiry := strContains lower "room" || strContains lower "bed" ||
      strContains lower "dorm" || strContains lower "private" }

/-- `isSalesMode` (server.js line 647): true iff any intent flag is set. -/
def isSalesMode (userMessage : String) : Bool :=
  (classifyIntent userMessage).isPriceInquiry ||
  (classifyIntent userMessage).isAvailabilityInquiry ||
  (classifyIntent userMessage).isRoomInquiry

/-- The fixed pricing keyword list of the specification. -/
def pricingKeywords : List String := ["price", "cost", "rate", "expensive"]

/-- The fixed availability keyword list of the specification. -/
def availabilityKeywords : List String := ["available", "book", "reserve"]

/-- The fixed room keyword list of the specification. -/
def roomKeywords : List String := ["room", "bed", "dorm", "private"]

/-- Claim C5: each intent tag holds exactly when some keyword of its fixed
list occurs as a substring of the lower-cased message, salesMode is the
disjunction of the tags, and the three sample messages classify as the
specification states. -/
theorem intent_classifier_spec :
    (∀ m : String,
        (classifyIntent m).isPriceInquiry
            = pricingKeywords.any (fun k => strContains (lowStr m) k)
      ∧ (classifyIntent m).isAvailabilityInquiry
            = availabilityKeywords.any (fun k => strContains (lowStr m) k)
      ∧ (classifyIntent m).isRoomInquiry
            = roomKeywords.any (fun k => strContains (lowStr m) k)
      ∧ isSalesMode m
            = ((classifyIntent m).isPriceInquiry ||
               (classifyIntent m).isAvailabilityInquiry ||
               (classifyIntent m).isRoomInquiry))
  ∧ classifyIntent ("What" ++ quoteStr ++ "s the price?")
      = { isPriceInquiry := true, isAvailabilityInquiry := false, isRoomInquiry := false }
  ∧ classifyIntent "Can I book a private room?"
      = { isPriceInquiry := false, isAvailabilityInquiry := true, isRoomInquiry := true }
  ∧ classifyIntent "Hello"
      = { isPriceInquiry := false, isAvailabilityInquiry := false, isRoomInquiry := false }
  ∧ isSalesMode "Hello" = false := by
  refine ⟨?_, by decide, by decide, by decide, by decide⟩
  intro m
  refine ⟨?_, ?_, ?_, rfl⟩ <;>
    simp [classifyIntent, pricingKeywords, availabilityKeywords, roomKeywords,
      Bool.or_assoc]

/-- The sales-mode conversation-style block of the system prompt
(server.js lines 658-664), verbatim. -/
def salesStyleBlock : String :=
  "\n- Be enthusiastic and helpful\n- Highlight value and benefits\n- Compare to alternatives when relevant (e.g., \"cheaper than hotels!\")\n- Create subtle urgency when appropriate\n- End responses with a soft call-to-action or question to keep conversation going\n- Example: \"We" ++ quoteStr ++ "re located right on the beach with FREE parking and WiFi - way better value than hotels! When are you thinking of visiting?\"\n"

/-- The non-sales conversation-style block of the system prompt
(server.js lines 666-670), verbatim. -/
def serviceStyleBlock : String :=
  "\n- Be friendly and helpful\n- Provide clear, accurate information\n- Offer proactive suggestions\n- Keep responses concise but warm\n- Example: \"Check-in is at 3pm! If you arrive early, we have free luggage storage. Need any beach recommendations for your stay?\"\n"

/-- The IMPORTANT RULES text between the section marker and the second
businessName interpolation (server.js lines 674-677), verbatim. -/
def importantRulesA : String :=
  "\n1. Keep responses to 2-3 sentences maximum unless more detail is specifically requested\n2. Be warm and conversational, not robotic\n3. If you don" ++ quoteStr ++ "t know something, say so and offer to connect them with staff\n4. Always represent "

/-- The IMPORTANT RULES text after the second businessName interpolation
(server.js lines 677-678), verbatim. -/
def importantRulesB : String := " professionally\n5. Use emojis sparingly (🏖️ 🌺 only when appropriate)"

/-- The system prompt template of POST /api/chat/:chatbotId/message
(server.js lines 649-678).  The constant template text is written split at
the section-marker boundaries; concatenated it is the verbatim template. -/
def systemPrompt (config : TenantConfig) (salesMode : Bool) : String :=
  "You are an AI assistant for " ++ config.businessName ++ ".\n\n" ++
  "BUSINESS INFORMATION:" ++ "\n" ++ config.businessInfo ++ "\n\n" ++
  "KNOWLEDGE BASE:" ++ "\n" ++ config.knowledgeBase ++ "\n\n" ++
  "CONVERSATION STYLE:" ++ "\n" ++
  (if salesMode then salesStyleBlock else serviceStyleBlock) ++ "\n\n" ++
  "IMPORTANT RULES:" ++ importantRulesA ++ config.businessName ++ importantRulesB

/-- The given strings occur, in order and without overlap, inside the
subject string. -/
def occursInOrder : List String → String → Prop
  | [], _ => True
  | p :: ps, s => ∃ a b : String, s = a ++ (p ++ b) ∧ occursInOrder ps b

/-- Prepend an occurrence with an explicit gap before it. -/
theorem occursInOrder_cons (p : String) (ps : List String) (a b : String)
    (h : occursInOrder ps b) : occursInOrder (p :: ps) (a ++ (p ++ b)) :=
  ⟨a, b, rfl, h⟩

/-- Prepend an occurrence sitting at the very front of the string. -/
theorem occursInOrder_head (p : String) (ps : List String) (b : String)
    (h : occursInOrder ps b) : occursInOrder (p :: ps) (p ++ b) :=
  ⟨"", b, by simp, h⟩

/-- Claim C6: for every tenant config and either salesMode value, the
composed system prompt contains, in this order: the identity line naming
the business, the BUSINESS INFORMATION marker followed by the verbatim
businessInfo, the KNOWLEDGE BASE marker followed by the verbatim
knowledgeBase, the conversation-style block selected by salesMode alone,
and the IMPORTANT RULES marker.  The statement is universally quantified,
so no section disappears when businessInfo or knowledgeBase is empty. -/
theorem system_prompt_structure (config : TenantConfig) (salesMode : Bool) :
    occursInOrder
      ["You are an AI assistant for ", config.businessName,
       "BUSINESS INFORMATION:", config.businessInfo,
       "KNOWLEDGE BASE:", config.knowledgeBase,
       "CONVERSATION STYLE:",
       (if salesMode then salesStyleBlock else serviceStyleBlock),
       "IMPORTANT RULES:"]
      (systemPrompt config salesMode) := by
  have hmaster : systemPrompt config salesMode
      = "You are an AI assistant for " ++ (config.businessName ++ (".\n\n" ++
        ("BUSINESS INFORMATION:" ++ ("\n" ++ (config.businessInfo ++ ("\n\n" ++
        ("KNOWLEDGE BASE:" ++ ("\n" ++ (config.knowledgeBase ++ ("\n\n" ++
        ("CONVERSATION STYLE:" ++ ("\n" ++
        ((if salesMode then salesStyleBlock else serviceStyleBlock) ++ ("\n\n" ++
        ("IMPORTANT RULES:" ++
        (importantRulesA ++ config.businessName ++ importantRulesB)))))))))))))))) := by
    simp only [systemPrompt, String.append_assoc]
  rw [hmaster]
  refine occursInOrder_head _ _ _ ?_
  refine occursInOrder_head _ _ _ ?_
  refine occursInOrder_cons _ _ ".\n\n" _ ?_
  refine occursInOrder_cons _ _ "\n" _ ?_
  refine occursInOrder_cons _ _ "\n\n" _ ?_
  refine occursInOrder_cons _ _ "\n" _ ?_
  refine occursInOrder_cons _ _ "\n\n" _ ?_
  refine occursInOrder_cons _ _ "\n" _ ?_
  refine occursInOrder_cons _ _ "\n\n" _ ?_
  trivial

/-- A row of the external `conversations` table, as read and written by the
chat endpoint (server.js lines 704-730): id, chatbot_id, message_count,
ended_at (absent until the first update) and language_detected. -/
structure ConversationRow where
  id : String
  chatbotId : String
  messageCount : Nat
  endedAt : Option String
  languageDetected : String
deriving DecidableEq

/-- A row of the external `messages` table (server.js lines 629-636 and
693-700). -/
structure MessageLogRow where
  conversationId : String
  chatbotId : String
  role : String
  content : String
deriving DecidableEq

/-- Lookup of a conversation row by id, modelling the
`select ... eq id ... single()` query (server.js lines 705-709). -/
def convGet : List ConversationRow → String → Option ConversationRow
  | [], _ => none
  | r :: rest, i => if r.id = i then some r else convGet rest i

/-- The conversation upsert of the chat endpoint (server.js lines 704-730):
if a row with the conversation id exists, its message_count becomes the
selected row's count plus 2 and ended_at is set to now; otherwise a fresh
row with count 2 and language_detected "en" is inserted. -/
def upsertConversation (convs : List ConversationRow)
    (conversationId chatbotId nowIso : String) : List ConversationRow :=
  match convGet convs conversationId with
  | some existing =>
      convs.map (fun r => if r.id = conversationId then
        { r with messageCount := existing.messageCount + 2, endedAt := some nowIso }
        else r)
  | none =>
      convs ++ [{ id := conversationId, chatbotId := chatbotId, messageCount := 2
                  endedAt := none, languageDetected := "en" }]

/-- The external state the chat endpoint reads and writes: the
`conversations` and `messages` tables of the durable store. -/
structure ChatState where
  convs : List ConversationRow
  messages : List MessageLogRow
deriving DecidableEq

/-- The JSON body shapes the chat endpoint can answer with. -/
inductive ChatBody
  | errorBody (msg : String)
  | responseBody (text : String)
deriving DecidableEq

/-- An HTTP result of the chat endpoint: numeric status plus JSON body. -/
structure ChatResult where
  status : Nat
  body : ChatBody
deriving DecidableEq

/-- The fixed fallback reply of the chat endpoint's catch handler
(server.js lines 736-738), verbatim. -/
def fallbackMessage : String :=
  "I" ++ quoteStr ++
    "m sorry, I encountered an error. Please try again or contact us directly at (808) 374-2131."

/-- POST /api/chat/:chatbotId/message (server.js lines 620-740).  The
completion provider is an explicit oracle from (system prompt, user message)
to either a reply or a ProviderError; the durable store's two tables travel
through `ChatState`.  On a provider error the catch handler answers status
500 with the fixed fallback text and leaves the conversations table
untouched (the user message row was already appended). -/
def handleChatMessage (store : List TenantConfig) (st : ChatState)
    (chatbotId userMessage conversationId : String)
    (provider : String → String → Except Unit String) (nowIso : String) :
    ChatResult × ChatState :=
  match storeGet store chatbotId with
  | none => ({ status := 404, body := .errorBody "Chatbot not found" }, st)
  | some config =>
    let st1 : ChatState :=
      { st with messages := st.messages ++
          [{ conversationId := conversationId, chatbotId := chatbotId
             role := "user", content := userMessage }] }
    match provider (systemPrompt config (isSalesMode userMessage)) userMessage with
    | .error _ => ({ status := 500, body := .responseBody fallbackMessage }, st1)
    | .ok botResponse =>
      let st2 : ChatState :=
        { st1 with messages := st1.messages ++
            [{ conversationId := conversationId, chatbotId := chatbotId
               role := "assistant", content := botResponse }] }
      let st3 : ChatState :=
        { st2 with convs := upsertConversation st2.convs conversationId chatbotId nowIso }
      ({ status := 200, body := .responseBody botResponse }, st3)

/-- Claim C1 (amended): when the tenant id is present and the completion
provider fails with a ProviderError, the endpoint answers with the fixed
fallback reply text — which contains the human-contact phone number — as the
response body, but with HTTP status 500, not a 200-equivalent success. -/
theorem chat_provider_error_fallback (store : List TenantConfig) (st : ChatState)
    (chatbotId userMessage conversationId nowIso : String)
    (provider : String → String → Except Unit String)
    (config : TenantConfig) (hc : storeGet store chatbotId = some config)
    (hp : ∀ p m, provider p m = .error ()) :
    (handleChatMessage store st chatbotId userMessage conversationId provider nowIso).1
        = { status := 500, body := .responseBody fallbackMessage } ∧
    strContains fallbackMessage "(808) 374-2131" = true := by
  constructor
  · simp [handleChatMessage, hc, hp]
  · decide

/-- Claim C1, instantiated at a concrete store and failing provider. -/
theorem chat_provider_error_fallback_witness :
    (handleChatMessage [sampleConfig] ⟨[], []⟩ "bot_1_aaaa" "Hi" "conv1"
        (fun _ _ => .error ()) "2024-01-02T00:00:00.000Z").1
      = { status := 500, body := .responseBody fallbackMessage } :=
  (chat_provider_error_fallback [sampleConfig] ⟨[], []⟩ "bot_1_aaaa" "Hi" "conv1"
    "2024-01-02T00:00:00.000Z" (fun _ _ => .error ()) sampleConfig
    (by decide) (fun _ _ => rfl)).1

/-- Claim C1 counterexample: at a concrete request whose tenant id is in the
store and whose provider call fails, the endpoint does return the fixed
fallback text as the body, but the HTTP status of the result is 500 — it is
not the claimed 200-equivalent success. -/
theorem chat_provider_error_counterexample :
    (handleChatMessage [sampleConfig] ⟨[], []⟩ "bot_1_aaaa" "Hello" "conv9"
        (fun _ _ => .error ()) "2024-01-02T00:00:00.000Z").1.status = 500 ∧
    (handleChatMessage [sampleConfig] ⟨[], []⟩ "bot_1_aaaa" "Hello" "conv9"
        (fun _ _ => .error ()) "2024-01-02T00:00:00.000Z").1.status ≠ 200 ∧
    (handleChatMessage [sampleConfig] ⟨[], []⟩ "bot_1_aaaa" "Hello" "conv9"
        (fun _ _ => .error ()) "2024-01-02T00:00:00.000Z").1.body
      = .responseBody fallbackMessage := by
  refine ⟨?_, ?_, ?_⟩ <;> decide

/-- Upserting into a table without the conversation id appends the fresh
count-2 row, which the id lookup then finds. -/
theorem convGet_upsert_absent (convs : List ConversationRow)
    (conversationId chatbotId nowIso : String)
    (h : convGet convs conversationId = none) :
    convGet (upsertConversation convs conversationId chatbotId nowIso) conversationId
      = some { id := conversationId, chatbotId := chatbotId, messageCount := 2
               endedAt := none, languageDetected := "en" } := by
  unfold upsertConversation
  rw [h]
  induction convs with
  | nil => simp [convGet]
  | cons r rest ih =>
    by_cases hr : r.id = conversationId
    · simp [convGet, hr] at h
    · have h' : convGet rest conversationId = none := by simpa [convGet, hr] using h
      simpa [convGet, hr] using ih h'

/-- Upserting into a table whose lookup returns row `r` makes the lookup
return `r` with its count increased by exactly 2 and ended_at refreshed. -/
theorem convGet_upsert_present (convs : List ConversationRow)
    (conversationId chatbotId nowIso : String) (r : ConversationRow)
    (h : convGet convs conversationId = some r) :
    convGet (upsertConversation convs conversationId chatbotId nowIso) conversationId
      = some { r with messageCount := r.messageCount + 2, endedAt := some nowIso } := by
  unfold upsertConversation
  rw [h]
  induction convs with
  | nil => simp [convGet] at h
  | cons x rest ih =>
    by_cases hx : x.id = conversationId
    · have hxr : x = r := by
        have := h
        simp [convGet, hx] at this
        exact this
      subst hxr
      simp [convGet, hx]
    · have h' : convGet rest conversationId = some r := by
        simpa [convGet, hx] using h
      simpa [convGet, hx] using ih h'

/-- A lookup that succeeds still succeeds after mapping an id-preserving
function over the table. -/
theorem convGet_map_isSome (f : ConversationRow → ConversationRow)
    (hf : ∀ r, (f r).id = r.id) (convs : List ConversationRow) (i : String)
    (h : (convGet convs i).isSome = true) :
    (convGet (convs.map f) i).isSome = true := by
  induction convs with
  | nil => simp [convGet] at h
  | cons x rest ih =>
    by_cases hx : x.id = i
    · simp [convGet, hf, hx]
    · have h' : (convGet rest i).isSome = true := by simpa [convGet, hx] using h
      simpa [convGet, hf, hx] using ih h'

/-- A lookup that succeeds still succeeds after appending rows. -/
theorem convGet_append_isSome (convs t : List ConversationRow) (i : String)
    (h : (convGet convs i).isSome = true) :
    (convGet (convs ++ t) i).isSome = true := by
  induction convs with
  | nil => simp [convGet] at h
  | cons x rest ih =>
    by_cases hx : x.id = i
    · simp [convGet, hx]
    · have h' : (convGet rest i).isSome = true := by simpa [convGet, hx] using h
      simpa [convGet, hx] using ih h'

/-- The upsert never removes a row: any id found before is found after. -/
theorem convGet_upsert_preserves (convs : List ConversationRow)
    (conversationId chatbotId nowIso : String) (i : String)
    (h : (convGet convs i).isSome = true) :
    (convGet (upsertConversation convs conversationId chatbotId nowIso) i).isSome = true := by
  unfold upsertConversation
  rcases convGet convs conversationId with _ | existing
  · exact convGet_append_isSome convs _ i h
  · refine convGet_map_isSome _ (fun r => ?_) convs i h
    by_cases hr : r.id = conversationId <;> simp [hr]

/-- Claim C7: for every successfully handled chat message (tenant found,
provider replies), the conversations table is upserted — a missing
conversation id is inserted with messageCount 2; an existing one has its
count increased by exactly 2 (not reset) and its endedAt refreshed — and,
on every path of the endpoint, no conversation row is ever deleted. -/
theorem conversation_upsert :
    (∀ (store : List TenantConfig) (st : ChatState)
        (chatbotId userMessage conversationId nowIso : String)
        (provider : String → String → Except Unit String)
        (config : TenantConfig) (reply : String),
      storeGet store chatbotId = some config →
      (∀ p m, provider p m = .ok reply) →
        (convGet st.convs conversationId = none →
          convGet ((handleChatMessage store st chatbotId userMessage conversationId
              provider nowIso).2).convs conversationId
            = some { id := conversationId, chatbotId := chatbotId, messageCount := 2
                     endedAt := none, languageDetected := "en" }) ∧
        (∀ r, convGet st.convs conversationId = some r →
          convGet ((handleChatMessage store st chatbotId userMessage conversationId
              provider nowIso).2).convs conversationId
            = some { r with messageCount := r.messageCount + 2, endedAt := some nowIso }))
  ∧ (∀ (store : List TenantConfig) (st : ChatState)
        (chatbotId userMessage conversationId nowIso : String)
        (provider : String → String → Except Unit String) (i : String),
      (convGet st.convs i).isSome = true →
      (convGet ((handleChatMessage store st chatbotId userMessage conversationId
          provider nowIso).2).convs i).isSome = true) := by
  constructor
  · intro store st chatbotId userMessage conversationId nowIso provider config reply hc hp
    constructor
    · intro habs
      simp only [handleChatMessage, hc, hp]
      exact convGet_upsert_absent st.convs conversationId chatbotId nowIso habs
    · intro r hpres
      simp only [handleChatMessage, hc, hp]
      exact convGet_upsert_present st.convs conversationId chatbotId nowIso r hpres
  · intro store st chatbotId userMessage conversationId nowIso provider i hi
    rcases hc : storeGet store chatbotId with _ | config
    · simpa [handleChatMessage, hc] using hi
    · rcases hpv : provider (systemPrompt config (isSalesMode userMessage)) userMessage
        with e | reply
      · simpa [handleChatMessage, hc, hpv] using hi
      · simp only [handleChatMessage, hc, hpv]
        exact convGet_upsert_preserves st.convs conversationId chatbotId nowIso i hi

/-- Claim C7, instantiated: a first message in a fresh conversation leaves a
count-2 row, and a second one on the resulting state leaves a count-4 row. -/
theorem conversation_upsert_witness :
    convGet ((handleChatMessage [sampleConfig] ⟨[], []⟩ "bot_1_aaaa" "Hi" "conv1"
        (fun _ _ => .ok "Aloha") "2024-01-02T00:00:00.000Z").2).convs "conv1"
      = some { id := "conv1", chatbotId := "bot_1_aaaa", messageCount := 2
               endedAt := none, languageDetected := "en" } :=
  ((conversation_upsert.1 [sampleConfig] ⟨[], []⟩ "bot_1_aaaa" "Hi" "conv1"
    "2024-01-02T00:00:00.000Z" (fun _ _ => .ok "Aloha") sampleConfig "Aloha"
    (by decide) (fun _ _ => rfl)).1) rfl

/-- Overwrite the active flag of a config, leaving every other field alone. -/
def setActive (v : Bool) (c : TenantConfig) : TenantConfig := { c with active := v }

/-- Map lookup commutes with flipping every stored active flag, because
`setActive` preserves ids. -/
theorem storeGet_map_setActive (v : Bool) (store : List TenantConfig) (i : String) :
    storeGet (store.map (setActive v)) i = (storeGet store i).map (setActive v) := by
  induction store with
  | nil => simp [storeGet]
  | cons c rest ih =>
    by_cases hc : c.id = i
    · simp [storeGet, setActive, hc]
    · simpa [storeGet, setActive, hc] using ih

/-- Escaping of single quotes performed on the welcome message interpolated
into the widget script (server.js line 471): each quote becomes
backslash-quote. -/
def escapeSingleQuotes (s : String) : String :=
  ⟨s.data.foldr (fun c acc =>
    if c = quoteChar then Char.ofNat 92 :: quoteChar :: acc else c :: acc) []⟩

/-- GET /embed.js widget script: the verbatim constant text from the start
of the served template (server.js line 88) up to the chatbot-id
interpolation at line 90.  Template-literal escapes are resolved as the
server resolves them; braces, quotes and backticks are written with
hex escapes. -/
def widgetSegment1 : String :=
  "\n(function() \x7b\n  const chatbotId = \x27"

/-- GET /embed.js widget script: the verbatim constant text between the
line-90 chatbot-id interpolation and the businessName interpolation at
line 418 (the widget CSS and DOM construction). -/
def widgetSegment2 : String :=
  "\x27;\n  const primaryColor = \x27#E53935\x27; // Dark coral red\n  const accentColor = \x27#26C6DA\x27; // Turquoise\n  \n  // Generate unique conversation ID\n  let conversationId = sessionStorage.getItem(\x27chatbot_conversation_id\x27);\n  if (!conversationId) \x7b\n    conversationId = \x27conv_\x27 + Date.now() + \x27_\x27 + Math.random().toString(36).substr(2, 9);\n    sessionStorage.setItem(\x27chatbot_conversation_id\x27, conversationId);\n  \x7d\n  \n  // Create container\n  const container = document.createElement(\x27div\x27);\n  container.id = \x27automagixx-chat-container\x27;\n  \n  // Styles\n  const style = document.createElement(\x27style\x27);\n  style.textContent = \x60\n    #automagixx-chat-button \x7b\n      position: fixed;\n      bottom: 20px;\n      right: 20px;\n      width: 60px;\n      height: 60px;\n      border-radius: 50%;\n      background: $\x7bprimaryColor\x7d;\n      color: white;\n      border: none;\n      font-size: 28px;\n      cursor: pointer;\n      box-shadow: 0 4px 12px rgba(229, 57, 53, 0.4);\n      z-index: 9999;\n      display: flex;\n      align-items: center;\n      justify-content: center;\n      transition: transform 0.2s, box-shadow 0.2s;\n      animation: pulse 2s infinite;\n    \x7d\n    \n    #automagixx-chat-button:hover \x7b\n      transform: scale(1.1);\n      box-shadow: 0 6px 20px rgba(229, 57, 53, 0.5);\n    \x7d\n    \n    @keyframes pulse \x7b\n      0%, 100% \x7b box-shadow: 0 4px 12px rgba(229, 57, 53, 0.4); \x7d\n      50% \x7b box-shadow: 0 4px 20px rgba(229, 57, 53, 0.6); \x7d\n    \x7d\n    \n    #automagixx-welcome-bubble \x7b\n      position: fixed;\n      bottom: 95px;\n      right: 20px;\n      background: white;\n      padding: 12px 16px;\n      border-radius: 12px;\n      box-shadow: 0 4px 12px rgba(0,0,0,0.15);\n      z-index: 9998;\n      max-width: 250px;\n      font-family: -apple-system, BlinkMacSystemFont, \x27Segoe UI\x27, sans-serif;\n      font-size: 14px;\n      color: #333;\n      animation: slideIn 0.3s ease-out;\n      display: none;\n    \x7d\n    \n    @keyframes slideIn \x7b\n      from \x7b opacity: 0; transform: translateY(10px); \x7d\n      to \x7b opacity: 1; transform: translateY(0); \x7d\n    \x7d\n    \n    #automagixx-welcome-bubble::after \x7b\n      content: \x27\x27;\n      position: absolute;\n      bottom: -8px;\n      right: 25px;\n      width: 0;\n      height: 0;\n      border-left: 8px solid transparent;\n      border-right: 8px solid transparent;\n      border-top: 8px solid white;\n    \x7d\n    \n    #automagixx-chat-window \x7b\n      display: none;\n      position: fixed;\n      bottom: 100px;\n      right: 20px;\n      width: 400px;\n      height: 600px;\n      max-width: calc(100vw - 40px);\n      max-height: calc(100vh - 140px);\n      background: white;\n      border-radius: 16px;\n      box-shadow: 0 8px 32px rgba(0,0,0,0.12);\n      z-index: 9999;\n      flex-direction: column;\n      animation: slideUp 0.3s ease-out;\n    \x7d\n    \n    @media (max-width: 768px) \x7b\n      #automagixx-chat-window \x7b\n        width: 100vw;\n        height: 100vh;\n        max-width: 100vw;\n        max-height: 100vh;\n        bottom: 0;\n        right: 0;\n        border-radius: 0;\n      \x7d\n    \x7d\n    \n    @keyframes slideUp \x7b\n      from \x7b opacity: 0; transform: translateY(20px); \x7d\n      to \x7b opacity: 1; transform: translateY(0); \x7d\n    \x7d\n    \n    #automagixx-chat-header \x7b\n      background: linear-gradient(135deg, $\x7bprimaryColor\x7d 0%, #C62828 100%);\n      color: white;\n      padding: 16px;\n      border-radius: 16px 16px 0 0;\n      display: flex;\n      justify-content: space-between;\n      align-items: center;\n    \x7d\n    \n    #automagixx-chat-header h3 \x7b\n      margin: 0;\n      font-size: 16px;\n      font-weight: 600;\n    \x7d\n    \n    #automagixx-chat-header p \x7b\n      margin: 4px 0 0 0;\n      font-size: 12px;\n      opacity: 0.9;\n    \x7d\n    \n    #automagixx-close-btn \x7b\n      background: none;\n      border: none;\n      color: white;\n      font-size: 24px;\n      cursor: pointer;\n      padding: 0;\n      width: 30px;\n      height: 30px;\n      display: flex;\n      align-items: center;\n      justify-content: center;\n      border-radius: 50%;\n      transition: background 0.2s;\n    \x7d\n    \n    #automagixx-close-btn:hover \x7b\n      background: rgba(255,255,255,0.2);\n    \x7d\n    \n    #automagixx-messages \x7b\n      flex: 1;\n      overflow-y: auto;\n      padding: 16px;\n      background: #f8f9fa;\n      display: flex;\n      flex-direction: column;\n      gap: 12px;\n    \x7d\n    \n    .automagixx-message \x7b\n      max-width: 80%;\n      padding: 12px 16px;\n      border-radius: 12px;\n      font-size: 14px;\n      line-height: 1.5;\n      animation: fadeIn 0.3s ease-out;\n    \x7d\n    \n    @keyframes fadeIn \x7b\n      from \x7b opacity: 0; transform: translateY(10px); \x7d\n      to \x7b opacity: 1; transform: translateY(0); \x7d\n    \x7d\n    \n    .automagixx-message.user \x7b\n      background: $\x7bprimaryColor\x7d;\n      color: white;\n      align-self: flex-end;\n      margin-left: auto;\n    \x7d\n    \n    .automagixx-message.bot \x7b\n      background: white;\n      color: #1f2937;\n      align-self: flex-start;\n      box-shadow: 0 1px 2px rgba(0,0,0,0.05);\n    \x7d\n    \n    .automagixx-typing \x7b\n      background: white;\n      padding: 12px 16px;\n      border-radius: 12px;\n      align-self: flex-start;\n      display: flex;\n      gap: 4px;\n      align-items: center;\n    \x7d\n    \n    .automagixx-typing span \x7b\n      width: 8px;\n      height: 8px;\n      border-radius: 50%;\n      background: #9CA3AF;\n      animation: bounce 1.4s infinite ease-in-out both;\n    \x7d\n    \n    .automagixx-typing span:nth-child(1) \x7b animation-delay: -0.32s; \x7d\n    .automagixx-typing span:nth-child(2) \x7b animation-delay: -0.16s; \x7d\n    \n    @keyframes bounce \x7b\n      0%, 80%, 100% \x7b transform: scale(0); \x7d\n      40% \x7b transform: scale(1); \x7d\n    \x7d\n    \n    .automagixx-prompts \x7b\n      display: flex;\n      flex-wrap: wrap;\n      gap: 8px;\n      margin-top: 8px;\n    \x7d\n    \n    .automagixx-prompt-btn \x7b\n      background: white;\n      border: 1px solid #e5e7eb;\n      color: $\x7bprimaryColor\x7d;\n      padding: 8px 12px;\n      border-radius: 8px;\n      font-size: 13px;\n      cursor: pointer;\n      transition: all 0.2s;\n      font-family: inherit;\n    \x7d\n    \n    .automagixx-prompt-btn:hover \x7b\n      background: $\x7bprimaryColor\x7d;\n      color: white;\n      border-color: $\x7bprimaryColor\x7d;\n    \x7d\n    \n    #automagixx-input-area \x7b\n      padding: 16px;\n      border-top: 1px solid #e5e7eb;\n      background: white;\n      border-radius: 0 0 16px 16px;\n    \x7d\n    \n    #automagixx-input-form \x7b\n      display: flex;\n      gap: 8px;\n    \x7d\n    \n    #automagixx-input \x7b\n      flex: 1;\n      padding: 12px;\n      border: 1px solid #e5e7eb;\n      border-radius: 8px;\n      font-size: 14px;\n      font-family: inherit;\n      outline: none;\n    \x7d\n    \n    #automagixx-input:focus \x7b\n      border-color: $\x7bprimaryColor\x7d;\n    \x7d\n    \n    #automagixx-send-btn \x7b\n      background: $\x7bprimaryColor\x7d;\n      color: white;\n      border: none;\n      padding: 12px 20px;\n      border-radius: 8px;\n      cursor: pointer;\n      font-weight: 500;\n      transition: background 0.2s;\n    \x7d\n    \n    #automagixx-send-btn:hover \x7b\n      background: #C62828;\n    \x7d\n    \n    #automagixx-send-btn:disabled \x7b\n      background: #ccc;\n      cursor: not-allowed;\n    \x7d\n    \n    #automagixx-branding \x7b\n      text-align: center;\n      padding: 8px;\n      font-size: 11px;\n      color: #9CA3AF;\n      border-top: 1px solid #f3f4f6;\n    \x7d\n    \n    #automagixx-branding a \x7b\n      color: $\x7bprimaryColor\x7d;\n      text-decoration: none;\n    \x7d\n  \x60;\n  \n  document.head.appendChild(style);\n  \n  // Create button\n  const button = document.createElement(\x27button\x27);\n  button.id = \x27automagixx-chat-button\x27;\n  button.innerHTML = \x27💬\x27;\n  button.setAttribute(\x27aria-label\x27, \x27Chat with us\x27);\n  \n  // Create welcome bubble\n  const welcomeBubble = document.createElement(\x27div\x27);\n  welcomeBubble.id = \x27automagixx-welcome-bubble\x27;\n  welcomeBubble.textContent = \x27Need help? Chat with us!\x27;\n  \n  // Create chat window\n  const chatWindow = document.createElement(\x27div\x27);\n  chatWindow.id = \x27automagixx-chat-window\x27;\n  \n  chatWindow.innerHTML = \x60\n    <div id=\"automagixx-chat-header\">\n      <div>\n        <h3>"

/-- GET /embed.js widget script: the verbatim constant text between the
line-418 businessName interpolation and the welcome-message interpolation
at line 471. -/
def widgetSegment3 : String :=
  "</h3>\n        <p>AI Assistant • Online</p>\n      </div>\n      <button id=\"automagixx-close-btn\" aria-label=\"Close chat\">×</button>\n    </div>\n    <div id=\"automagixx-messages\"></div>\n    <div id=\"automagixx-input-area\">\n      <form id=\"automagixx-input-form\">\n        <input \n          id=\"automagixx-input\" \n          type=\"text\" \n          placeholder=\"Type your message...\" \n          autocomplete=\"off\"\n          aria-label=\"Message input\"\n        />\n        <button id=\"automagixx-send-btn\" type=\"submit\">Send</button>\n      </form>\n    </div>\n    <div id=\"automagixx-branding\">\n      Powered by <a href=\"https://automagixx.com\" target=\"_blank\">Automagixx</a>\n    </div>\n  \x60;\n  \n  // Append elements\n  container.appendChild(button);\n  container.appendChild(welcomeBubble);\n  container.appendChild(chatWindow);\n  document.body.appendChild(container);\n  \n  // Get elements\n  const messagesDiv = document.getElementById(\x27automagixx-messages\x27);\n  const inputForm = document.getElementById(\x27automagixx-input-form\x27);\n  const input = document.getElementById(\x27automagixx-input\x27);\n  const sendBtn = document.getElementById(\x27automagixx-send-btn\x27);\n  const closeBtn = document.getElementById(\x27automagixx-close-btn\x27);\n  \n  // Show welcome bubble after 1 second, hide after 10 seconds\n  setTimeout(() => \x7b\n    welcomeBubble.style.display = \x27block\x27;\n    setTimeout(() => \x7b\n      welcomeBubble.style.display = \x27none\x27;\n    \x7d, 10000);\n  \x7d, 1000);\n  \n  // Toggle chat\n  function openChat() \x7b\n    chatWindow.style.display = \x27flex\x27;\n    button.style.display = \x27none\x27;\n    welcomeBubble.style.display = \x27none\x27;\n    input.focus();\n    \n    // Show welcome message if first time\n    if (messagesDiv.children.length === 0) \x7b\n      addMessage(\x27"

/-- GET /embed.js widget script: the verbatim constant text between the
line-471 welcome-message interpolation and the chatbot-id interpolation in
the fetch URL at line 548. -/
def widgetSegment4 : String :=
  "\x27, \x27bot\x27);\n      showInitialPrompts();\n    \x7d\n  \x7d\n  \n  function closeChat() \x7b\n    chatWindow.style.display = \x27none\x27;\n    button.style.display = \x27flex\x27;\n  \x7d\n  \n  button.addEventListener(\x27click\x27, openChat);\n  closeBtn.addEventListener(\x27click\x27, closeChat);\n  \n  // Initial prompt buttons\n  function showInitialPrompts() \x7b\n    const prompts = [\n      \x27What are your room prices?\x27,\n      \x27What time is check-in?\x27,\n      \x27Do you have parking?\x27,\n      \x27How far from the beach?\x27,\n      \x27Do you have private rooms?\x27,\n      \x27What activities are nearby?\x27\n    ];\n    \n    const promptsContainer = document.createElement(\x27div\x27);\n    promptsContainer.className = \x27automagixx-prompts\x27;\n    \n    prompts.forEach(prompt => \x7b\n      const btn = document.createElement(\x27button\x27);\n      btn.className = \x27automagixx-prompt-btn\x27;\n      btn.textContent = prompt;\n      btn.onclick = () => \x7b\n        sendMessage(prompt);\n        promptsContainer.remove();\n      \x7d;\n      promptsContainer.appendChild(btn);\n    \x7d);\n    \n    messagesDiv.appendChild(promptsContainer);\n    messagesDiv.scrollTop = messagesDiv.scrollHeight;\n  \x7d\n  \n  // Add message to chat\n  function addMessage(text, sender) \x7b\n    const msgDiv = document.createElement(\x27div\x27);\n    msgDiv.className = \x60automagixx-message $\x7bsender\x7d\x60;\n    msgDiv.textContent = text;\n    messagesDiv.appendChild(msgDiv);\n    messagesDiv.scrollTop = messagesDiv.scrollHeight;\n  \x7d\n  \n  // Show typing indicator\n  function showTyping() \x7b\n    const typingDiv = document.createElement(\x27div\x27);\n    typingDiv.className = \x27automagixx-typing\x27;\n    typingDiv.id = \x27automagixx-typing-indicator\x27;\n    typingDiv.innerHTML = \x27<span></span><span></span><span></span>\x27;\n    messagesDiv.appendChild(typingDiv);\n    messagesDiv.scrollTop = messagesDiv.scrollHeight;\n  \x7d\n  \n  function hideTyping() \x7b\n    const typingDiv = document.getElementById(\x27automagixx-typing-indicator\x27);\n    if (typingDiv) typingDiv.remove();\n  \x7d\n  \n  // Send message\n  async function sendMessage(message) \x7b\n    if (!message.trim()) return;\n    \n    addMessage(message, \x27user\x27);\n    input.value = \x27\x27;\n    sendBtn.disabled = true;\n    \n    showTyping();\n    \n    try \x7b\n      const response = await fetch(\x27https://automagixx-chatbot-server.vercel.app/api/chat/"

/-- GET /embed.js widget script: the verbatim constant text from the
line-548 chatbot-id interpolation to the end of the template at
line 575. -/
def widgetSegment5 : String :=
  "/message\x27, \x7b\n        method: \x27POST\x27,\n        headers: \x7b \x27Content-Type\x27: \x27application/json\x27 \x7d,\n        body: JSON.stringify(\x7b \n          message,\n          conversationId\n        \x7d)\n      \x7d);\n      \n      const data = await response.json();\n      hideTyping();\n      addMessage(data.response, \x27bot\x27);\n    \x7d catch (error) \x7b\n      hideTyping();\n      addMessage(\"Sorry, I\x27m having trouble connecting. Please try again or contact us at (808) 374-2131.\", \x27bot\x27);\n    \x7d\n    \n    sendBtn.disabled = false;\n    input.focus();\n  \x7d\n  \n  // Form submit\n  inputForm.addEventListener(\x27submit\x27, (e) => \x7b\n    e.preventDefault();\n    sendMessage(input.value);\n  \x7d);\n\x7d)();\n  "

/-- An HTTP result of GET /embed.js: status plus response text. -/
structure EmbedResult where
  status : Nat
  body : String
deriving DecidableEq

/-- GET /embed.js (server.js lines 80-576): 400 without an id query
parameter, 404 when the id is not in the store, otherwise the widget script
with the chatbot id, businessName and quote-escaped welcome message
interpolated.  A stored customization without welcomeMessage makes the
line-471 property access throw, which Express answers with a 500. -/
def embedHandler (store : List TenantConfig) (queryId : Option String) : EmbedResult :=
  match queryId with
  | none => { status := 400, body := "Missing chatbot ID" }
  | some chatbotId =>
    match storeGet store chatbotId with
    | none => { status := 404, body := "Chatbot not found" }
    | some config =>
      match config.customization.welcomeMessage with
      | none => { status := 500, body := "Internal Server Error" }
      | some w =>
        { status := 200
          body := widgetSegment1 ++ chatbotId ++ widgetSegment2 ++
            config.businessName ++ widgetSegment3 ++ escapeSingleQuotes w ++
            widgetSegment4 ++ chatbotId ++ widgetSegment5 }

/-- Claim C9: flipping the active flag of every stored config changes
nothing about message handling (result and written state) nor about widget
serving — the active flag is never read on either path, so inactive tenants
behave exactly like active ones. -/
theorem active_flag_noninterference :
    (∀ (v : Bool) (store : List TenantConfig) (st : ChatState)
        (chatbotId userMessage conversationId nowIso : String)
        (provider : String → String → Except Unit String),
      handleChatMessage (store.map (setActive v)) st chatbotId userMessage
          conversationId provider nowIso
        = handleChatMessage store st chatbotId userMessage conversationId
            provider nowIso)
  ∧ (∀ (v : Bool) (store : List TenantConfig) (queryId : Option String),
      embedHandler (store.map (setActive v)) queryId = embedHandler store queryId) := by
  constructor
  · intro v store st chatbotId userMessage conversationId nowIso provider
    unfold handleChatMessage
    rw [storeGet_map_setActive]
    rcases storeGet store chatbotId with _ | config
    · rfl
    · rfl
  · intro v store queryId
    rcases queryId with _ | cid
    · rfl
    · have h := storeGet_map_setActive v store cid
      rcases hg : storeGet store cid with _ | config
      · rw [hg] at h
        simp [embedHandler, h, hg]
      · rw [hg] at h
        simp [embedHandler, h, hg, setActive]

/-- A row of the `messages` table as read back by the analytics endpoint
(server.js lines 761-766); createdAt is the creation instant in epoch
milliseconds. -/
structure StoredMessage where
  chatbotId : String
  conversationId : String
  role : String
  content : String
  createdAt : Int
deriving DecidableEq

/-- A row of the `conversations` table as read back by the analytics
endpoint (server.js lines 752-756); startedAt in epoch milliseconds. -/
structure StoredConversation where
  id : String
  chatbotId : String
  startedAt : Int
  messageCount : Nat
deriving DecidableEq

/-- Whether a character is a decimal digit. -/
def isDigitChar (c : Char) : Bool := '0' ≤ c && c ≤ '9'

/-- Numeric value of a run of decimal digits. -/
def digitsVal (ds : List Char) : Nat :=
  ds.foldl (fun a c => a * 10 + (c.toNat - 48)) 0

/-- `content.substring(0, 100)` (server.js line 774): the first 100
characters of the content, exact truncation. -/
def truncate100 (s : String) : String := ⟨s.data.take 100⟩

/-- Whether the association list already has the given key. -/
def hasKey : List (String × Nat) → String → Bool
  | [], _ => false
  | p :: rest, q => if p.1 = q then true else hasKey rest q

/-- One step of building `questionCounts` (server.js line 775):
the JS object update questionCounts of question := previous-or-0 plus 1,
over an insertion-ordered association list. -/
def bumpCount (counts : List (String × Nat)) (q : String) : List (String × Nat) :=
  if hasKey counts q then
    counts.map (fun p => if p.1 = q then (p.1, p.2 + 1) else p)
  else counts ++ [(q, 1)]

/-- The questionCounts object (server.js lines 772-776) built over the
user-role messages: the own properties the line-775 updates create, as an
association list in creation order.  The `counts of q OR-ELSE 0, plus 1`
update is an own-property read-modify-write only for plain keys — a key
that is an `Object.prototype` property name instead reads the inherited
function (corrupting the count to a string) or, for `__proto__`, is
silently dropped by the inherited setter; such keys are outside this model
and are excluded by the key hypothesis of the C8 theorem.  Enumeration
order of the object is NOT this list's order in general: `Object.entries`
puts integer-like keys first (see `objectEntries`). -/
def questionCounts (userMessages : List StoredMessage) : List (String × Nat) :=
  userMessages.foldl (fun counts m => bumpCount counts (truncate100 m.content)) []

/-- Whether a string is an integer-like JS object key (a canonical array
index): a run of decimal digits with no leading zero, of value at most
2^32 - 2.  JS objects enumerate such keys first, in ascending numeric
order, before the string keys in insertion order. -/
def isArrayIndexKey (s : String) : Bool :=
  !s.data.isEmpty && s.data.all isDigitChar &&
    (s == "0" || !(s.data.headD '0' == '0')) &&
    digitsVal s.data < 4294967295

/-- The property names inherited from `Object.prototype`, which the
line-775 plain-object update reads (or, for the `__proto__` setter,
writes) instead of an own count. -/
def objectProtoKeys : List String :=
  ["constructor", "hasOwnProperty", "isPrototypeOf", "propertyIsEnumerable",
   "toLocaleString", "toString", "valueOf", "__proto__", "__defineGetter__",
   "__defineSetter__", "__lookupGetter__", "__lookupSetter__"]

/-- A plain object key: neither integer-like (no enumeration reordering)
nor an `Object.prototype` property name (no inherited read/write). -/
def safePlainKey (s : String) : Bool :=
  !isArrayIndexKey s && !(objectProtoKeys.contains s)

/-- Insert an entry into a list sorted by ascending numeric key value. -/
def insertByKeyNumAsc (x : String × Nat) : List (String × Nat) → List (String × Nat)
  | [] => [x]
  | y :: ys =>
      if digitsVal x.1.data < digitsVal y.1.data then x :: y :: ys
      else y :: insertByKeyNumAsc x ys

/-- Sort entries by ascending numeric key value. -/
def sortByKeyNumAsc (l : List (String × Nat)) : List (String × Nat) :=
  l.foldl (fun acc x => insertByKeyNumAsc x acc) []

/-- `Object.entries(questionCounts)` (server.js line 778): JS enumerates
the integer-like keys first, in ascending numeric order, then the
remaining string keys in insertion (property-creation) order. -/
def objectEntries (l : List (String × Nat)) : List (String × Nat) :=
  sortByKeyNumAsc (l.filter (fun p => isArrayIndexKey p.1))
    ++ l.filter (fun p => !isArrayIndexKey p.1)

/-- Insert an entry into a list sorted by descending count, after every
entry with a greater-or-equal count (the insertion point a stable
descending sort gives it). -/
def insertByCountDesc (x : String × Nat) : List (String × Nat) → List (String × Nat)
  | [] => [x]
  | y :: ys => if y.2 < x.2 then x :: y :: ys else y :: insertByCountDesc x ys

/-- `.sort((a, b) => b[1] - a[1])` (server.js line 779): stable sort by
descending count (Array.prototype.sort is stable), modelled as a stable
insertion sort. -/
def sortByCountDesc (l : List (String × Nat)) : List (String × Nat) :=
  l.foldl (fun acc x => insertByCountDesc x acc) []

/-- One `{question, count}` entry of the topQuestions response
(server.js line 781). -/
structure QuestionEntry where
  question : String
  count : Nat
deriving DecidableEq

/-- topQuestions (server.js lines 770-781): filter the user-role messages,
group by the first 100 characters of content, count, enumerate the groups
in JS object key order, sort by descending count, keep the first 10, and
shape each pair as question and count. -/
def topQuestions (messages : List StoredMessage) : List QuestionEntry :=
  let userMessages := messages.filter (fun m => m.role == "user")
  let counts := questionCounts userMessages
  ((sortByCountDesc (objectEntries counts)).take 10).map
    (fun p => { question := p.1, count := p.2 })

/-- Four messages in the analytics window: three user messages sharing one
first-100-character prefix, one distinct user message, and one assistant
message (which topQuestions must ignore). -/
def exampleMessages : List StoredMessage :=
  [{ chatbotId := "bot1", conversationId := "c1", role := "user"
     content := "What time is check-in?", createdAt := 0 },
   { chatbotId := "bot1", conversationId := "c1", role := "assistant"
     content := "3pm", createdAt := 1 },
   { chatbotId := "bot1", conversationId := "c2", role := "user"
     content := "What time is check-in?", createdAt := 2 },
   { chatbotId := "bot1", conversationId := "c3", role := "user"
     content := "What time is check-in?", createdAt := 3 },
   { chatbotId := "bot1", conversationId := "c4", role := "user"
     content := "Hello", createdAt := 4 }]

/-- Membership in an insertion is membership in the inserted element or the
original list. -/
theorem mem_insertByCountDesc (x z : String × Nat) (l : List (String × Nat)) :
    z ∈ insertByCountDesc x l ↔ z = x ∨ z ∈ l := by
  induction l with
  | nil => simp [insertByCountDesc]
  | cons y ys ih =>
    by_cases hy : y.2 < x.2
    · simp [insertByCountDesc, hy]
    · simp [insertByCountDesc, hy, ih]
      tauto

/-- Insertion preserves sortedness by descending count. -/
theorem pairwise_insertByCountDesc (x : String × Nat) (l : List (String × Nat))
    (h : l.Pairwise (fun a b => b.2 ≤ a.2)) :
    (insertByCountDesc x l).Pairwise (fun a b => b.2 ≤ a.2) := by
  induction l with
  | nil => simp [insertByCountDesc]
  | cons y ys ih =>
    rcases List.pairwise_cons.mp h with ⟨hy, hys⟩
    by_cases hxy : y.2 < x.2
    · simp only [insertByCountDesc, if_pos hxy]
      refine List.pairwise_cons.mpr ⟨?_, h⟩
      intro z hz
      rcases List.mem_cons.mp hz with rfl | hz'
      · exact Nat.le_of_lt hxy
      · exact Nat.le_trans (hy z hz') (Nat.le_of_lt hxy)
    · simp only [insertByCountDesc, if_neg hxy]
      refine List.pairwise_cons.mpr ⟨?_, ih hys⟩
      intro z hz
      rcases (mem_insertByCountDesc x z ys).mp hz with rfl | hz'
      · exact Nat.le_of_not_lt hxy
      · exact hy z hz'

/-- Folding insertions over any list keeps membership exactly the union. -/
theorem mem_foldl_insertByCountDesc (l acc : List (String × Nat)) (z : String × Nat) :
    z ∈ l.foldl (fun a x => insertByCountDesc x a) acc ↔ z ∈ acc ∨ z ∈ l := by
  induction l generalizing acc with
  | nil => simp
  | cons x rest ih =>
    simp [List.foldl_cons, ih, mem_insertByCountDesc]
    tauto

/-- Membership in the stable descending sort is membership in the input. -/
theorem mem_sortByCountDesc (l : List (String × Nat)) (z : String × Nat) :
    z ∈ sortByCountDesc l ↔ z ∈ l := by
  unfold sortByCountDesc
  simpa using mem_foldl_insertByCountDesc l [] z

/-- The stable descending sort is sorted by descending count. -/
theorem pairwise_sortByCountDesc (l : List (String × Nat)) :
    (sortByCountDesc l).Pairwise (fun a b => b.2 ≤ a.2) := by
  unfold sortByCountDesc
  have aux : ∀ (m acc : List (String × Nat)),
      acc.Pairwise (fun a b => b.2 ≤ a.2) →
      (m.foldl (fun a x => insertByCountDesc x a) acc).Pairwise (fun a b => b.2 ≤ a.2) := by
    intro m
    induction m with
    | nil => intro acc h; simpa using h
    | cons x rest ih =>
      intro acc h
      exact ih _ (pairwise_insertByCountDesc x acc h)
  exact aux l [] (by simp)

/-- First-match lookup in the counts association list. -/
def countGet : List (String × Nat) → String → Option Nat
  | [], _ => none
  | p :: rest, q => if p.1 = q then some p.2 else countGet rest q

/-- The keys of the counts association list, in order. -/
def countKeys (l : List (String × Nat)) : List String := l.map Prod.fst

/-- hasKey agrees with key membership. -/
theorem hasKey_iff_mem (l : List (String × Nat)) (q : String) :
    hasKey l q = true ↔ q ∈ countKeys l := by
  induction l with
  | nil => simp [hasKey, countKeys]
  | cons p rest ih =>
    by_cases hp : p.1 = q
    · simp [hasKey, countKeys, hp]
    · simp [hasKey, countKeys, hp, ih]
      tauto

/-- hasKey agrees with lookup success. -/
theorem hasKey_iff_isSome (l : List (String × Nat)) (q : String) :
    hasKey l q = true ↔ (countGet l q).isSome = true := by
  induction l with
  | nil => simp [hasKey, countGet]
  | cons p rest ih =>
    by_cases hp : p.1 = q
    · simp [hasKey, countGet, hp]
    · simp [hasKey, countGet, hp, ih]

/-- Lookup after the per-key increment map of bumpCount. -/
theorem countGet_map_inc (l : List (String × Nat)) (q q' : String) :
    countGet (l.map (fun p => if p.1 = q then (p.1, p.2 + 1) else p)) q'
      = if q' = q then (countGet l q).map (fun n => n + 1) else countGet l q' := by
  induction l with
  | nil => simp [countGet]
  | cons p rest ih =>
    simp only [List.map_cons]
    by_cases hp : p.1 = q
    · rw [if_pos hp]
      by_cases hq : q' = q
      · subst hq
        simp [countGet, hp]
      · have hh : ¬ p.1 = q' := by
          rw [hp]
          exact fun e => hq e.symm
        simp [countGet, hh, ih, hq]
    · rw [if_neg hp]
      by_cases hp2 : p.1 = q'
      · by_cases hq : q' = q
        · exact absurd (hp2.trans hq) hp
        · simp [countGet, hp2, hq]
      · simp [countGet, hp, hp2, ih]

/-- Lookup distributes over append, preferring the left list. -/
theorem countGet_append (l t : List (String × Nat)) (q : String) :
    countGet (l ++ t) q = (countGet l q).or (countGet t q) := by
  induction l with
  | nil => simp [countGet]
  | cons p rest ih =>
    by_cases hp : p.1 = q
    · simp [countGet, hp]
    · simp [countGet, hp, ih]

/-- The count seen through the lookup (0 when absent) after one bump: the
bumped key gains one, every other key is untouched. -/
theorem countGetD_bump (l : List (String × Nat)) (q q' : String) :
    (countGet (bumpCount l q) q').getD 0
      = (countGet l q').getD 0 + (if q' = q then 1 else 0) := by
  unfold bumpCount
  by_cases hk : hasKey l q = true
  · rw [if_pos hk, countGet_map_inc]
    by_cases hq : q' = q
    · subst hq
      rcases hs : countGet l q' with _ | n
      · rw [hasKey_iff_isSome] at hk
        rw [hs] at hk
        simp at hk
      · simp [hs]
    · simp [hq]
  · rw [if_neg hk, countGet_append]
    by_cases hq : q' = q
    · subst hq
      have hn : countGet l q' = none := by
        rcases hs : countGet l q' with _ | n
        · rfl
        · rw [hasKey_iff_isSome, hs] at hk
          simp at hk
      simp [hn, countGet]
    · have hq2 : ¬ q = q' := fun hh => hq hh.symm
      simp [countGet, hq, hq2]

/-- Running the question counter over messages adds, for each key, exactly
the number of user messages whose truncated content equals that key. -/
theorem countGetD_foldl (msgs : List StoredMessage) (acc : List (String × Nat)) (q : String) :
    (countGet (msgs.foldl (fun c m => bumpCount c (truncate100 m.content)) acc) q).getD 0
      = (countGet acc q).getD 0
        + (msgs.filter (fun m => truncate100 m.content == q)).length := by
  induction msgs generalizing acc with
  | nil => simp
  | cons m rest ih =>
    rw [List.foldl_cons, ih, countGetD_bump]
    by_cases hm : truncate100 m.content = q
    · simp [hm, Nat.add_comm, Nat.add_assoc, Nat.add_left_comm]
    · have hm2 : ¬ q = truncate100 m.content := fun e => hm e.symm
      simp [hm, hm2]

/-- The keys are unchanged by the increment map of bumpCount. -/
theorem countKeys_map_inc (l : List (String × Nat)) (q : String) :
    countKeys (l.map (fun p => if p.1 = q then (p.1, p.2 + 1) else p)) = countKeys l := by
  induction l with
  | nil => rfl
  | cons p rest ih =>
    by_cases hp : p.1 = q
    · simp [countKeys, hp] at ih ⊢
      exact ih
    · simp [countKeys, hp] at ih ⊢
      exact ih

/-- Bumping keeps the keys duplicate-free. -/
theorem nodup_countKeys_bump (l : List (String × Nat)) (q : String)
    (h : (countKeys l).Nodup) : (countKeys (bumpCount l q)).Nodup := by
  unfold bumpCount
  by_cases hk : hasKey l q = true
  · rw [if_pos hk, countKeys_map_inc]
    exact h
  · rw [if_neg hk]
    have hq : q ∉ countKeys l := fun hm => hk ((hasKey_iff_mem l q).mpr hm)
    have : countKeys (l ++ [(q, 1)]) = countKeys l ++ [q] := by
      simp [countKeys]
    rw [this]
    simp [List.nodup_append, h, hq]

/-- The question counter always has duplicate-free keys. -/
theorem nodup_countKeys_questionCounts (msgs : List StoredMessage) :
    (countKeys (questionCounts msgs)).Nodup := by
  unfold questionCounts
  have aux : ∀ (m : List StoredMessage) (acc : List (String × Nat)),
      (countKeys acc).Nodup →
      (countKeys (m.foldl (fun c x => bumpCount c (truncate100 x.content)) acc)).Nodup := by
    intro m
    induction m with
    | nil => intro acc h; simpa using h
    | cons x rest ih =>
      intro acc h
      exact ih _ (nodup_countKeys_bump acc (truncate100 x.content) h)
  exact aux msgs [] (by simp [countKeys])

/-- With duplicate-free keys, a member pair is what the lookup returns. -/
theorem countGet_eq_of_mem (l : List (String × Nat)) (q : String) (n : Nat)
    (hnd : (countKeys l).Nodup) (hm : (q, n) ∈ l) : countGet l q = some n := by
  induction l with
  | nil => simp at hm
  | cons p rest ih =>
    rcases List.mem_cons.mp hm with rfl | hm'
    · simp [countGet]
    · have h2 : (p.1 :: countKeys rest).Nodup := by
        simpa only [countKeys, List.map_cons] using hnd
      have hnd' : (countKeys rest).Nodup := (List.nodup_cons.mp h2).2
      by_cases hp : p.1 = q
      · exfalso
        have hqk : q ∈ countKeys rest := List.mem_map_of_mem Prod.fst hm'
        have hnotin : p.1 ∉ countKeys rest := (List.nodup_cons.mp h2).1
        rw [hp] at hnotin
        exact hnotin hqk
      · simpa [countGet, hp] using ih hnd' hm'

/-- Stability of one insertion: the elements of any fixed count keep their
relative order; the inserted element lands after its equals. -/
theorem filter_insertByCountDesc (x : String × Nat) (l : List (String × Nat)) (n : Nat)
    (h : l.Pairwise (fun a b => b.2 ≤ a.2)) :
    (insertByCountDesc x l).filter (fun p => p.2 == n)
      = if x.2 = n then l.filter (fun p => p.2 == n) ++ [x]
        else l.filter (fun p => p.2 == n) := by
  induction l with
  | nil =>
    by_cases hx : x.2 = n <;> simp [insertByCountDesc, hx]
  | cons y ys ih =>
    rcases List.pairwise_cons.mp h with ⟨hy, hys⟩
    by_cases hxy : y.2 < x.2
    · simp only [insertByCountDesc, if_pos hxy]
      by_cases hx : x.2 = n
      · have hempty : (y :: ys).filter (fun p => p.2 == n) = [] := by
          rw [List.filter_eq_nil_iff]
          intro z hz
          rcases List.mem_cons.mp hz with rfl | hz'
          · simp
            omega
          · have := hy z hz'
            simp
            omega
        simp [hx, hempty]
      · simp [List.filter_cons, hx]
    · simp only [insertByCountDesc, if_neg hxy]
      rw [List.filter_cons, List.filter_cons, ih hys]
      by_cases hx : x.2 = n
      · rw [if_pos hx]
        by_cases hyn : (y.2 == n) = true <;> simp [hyn, hx]
      · rw [if_neg hx]
        rw [if_neg hx]

/-- Stability of the whole fold: per count value, the sorted result lists
the entries in the same order as the input. -/
theorem filter_foldl_insert (l acc : List (String × Nat)) (n : Nat)
    (h : acc.Pairwise (fun a b => b.2 ≤ a.2)) :
    (l.foldl (fun a x => insertByCountDesc x a) acc).filter (fun p => p.2 == n)
      = acc.filter (fun p => p.2 == n) ++ l.filter (fun p => p.2 == n) := by
  induction l generalizing acc with
  | nil => simp
  | cons x rest ih =>
    rw [List.foldl_cons, ih _ (pairwise_insertByCountDesc x acc h),
      filter_insertByCountDesc x acc n h, List.filter_cons]
    by_cases hx : x.2 = n
    · simp [hx]
    · simp [hx]

/-- Per count value, the stable descending sort preserves the input order
of the entries — ties stay in insertion order. -/
theorem filter_sortByCountDesc (l : List (String × Nat)) (n : Nat) :
    (sortByCountDesc l).filter (fun p => p.2 == n) = l.filter (fun p => p.2 == n) := by
  unfold sortByCountDesc
  simpa using filter_foldl_insert l [] n (by simp)

/-- Any key of a bumped table is an old key or the bumped key. -/
theorem countKeys_bump_mem (acc : List (String × Nat)) (q k : String)
    (hk : k ∈ countKeys (bumpCount acc q)) : k ∈ countKeys acc ∨ k = q := by
  unfold bumpCount at hk
  by_cases hh : hasKey acc q = true
  · rw [if_pos hh, countKeys_map_inc] at hk
    exact Or.inl hk
  · rw [if_neg hh] at hk
    have : countKeys (acc ++ [(q, 1)]) = countKeys acc ++ [q] := by simp [countKeys]
    rw [this] at hk
    rcases List.mem_append.mp hk with h1 | h2
    · exact Or.inl h1
    · exact Or.inr (by simpa using h2)

/-- Any key of the folded counter is an initial key or the truncation of a
processed message. -/
theorem key_mem_foldl (msgs : List StoredMessage) (acc : List (String × Nat)) (k : String)
    (hk : k ∈ countKeys (msgs.foldl (fun c m => bumpCount c (truncate100 m.content)) acc)) :
    k ∈ countKeys acc ∨ ∃ m, m ∈ msgs ∧ k = truncate100 m.content := by
  induction msgs generalizing acc with
  | nil => exact Or.inl (by simpa using hk)
  | cons m rest ih =>
    rcases ih (bumpCount acc (truncate100 m.content)) (by simpa using hk) with h1 | h2
    · rcases countKeys_bump_mem acc _ k h1 with ha | hb
      · exact Or.inl ha
      · exact Or.inr ⟨m, by simp, hb⟩
    · rcases h2 with ⟨mm, hmm, he⟩
      exact Or.inr ⟨mm, by simp [hmm], he⟩

/-- Every key of the question counter is the truncated content of one of
the counted messages. -/
theorem key_mem_questionCounts (msgs : List StoredMessage) (k : String)
    (hk : k ∈ countKeys (questionCounts msgs)) :
    ∃ m, m ∈ msgs ∧ k = truncate100 m.content := by
  unfold questionCounts at hk
  rcases key_mem_foldl msgs [] k hk with h1 | h2
  · simp [countKeys] at h1
  · exact h2

/-- When no key is integer-like, JS enumeration is plain insertion order. -/
theorem objectEntries_eq_self (l : List (String × Nat))
    (h : ∀ p ∈ l, isArrayIndexKey p.1 = false) : objectEntries l = l := by
  unfold objectEntries
  have h1 : l.filter (fun p => isArrayIndexKey p.1) = [] := by
    rw [List.filter_eq_nil_iff]
    intro p hp
    simp [h p hp]
  have h2 : l.filter (fun p => !isArrayIndexKey p.1) = l := by
    rw [List.filter_eq_self]
    intro p hp
    simp [h p hp]
  rw [h1, h2]
  rfl

/-- Claim C8 (amended): provided every user-message question prefix (first
100 characters of content) is a plain object key — neither an integer-like
string nor an Object.prototype property name — topQuestions groups the
user-role messages by that prefix, each served entry's count equals the
number of user messages sharing its prefix, the result is sorted by
descending count with ties kept in grouping/insertion order (the per-count
filter equation), and at most the top 10 are served; on the concrete window
with three identical-prefix user messages and one distinct one, the top
entry has count 3. -/
theorem top_questions_spec :
    (∀ messages : List StoredMessage,
      (∀ m ∈ messages, m.role = "user" → safePlainKey (truncate100 m.content) = true) →
        (topQuestions messages).length ≤ 10
      ∧ (topQuestions messages).Pairwise (fun a b => b.count ≤ a.count)
      ∧ (∀ e ∈ topQuestions messages,
          e.count = ((messages.filter (fun m => m.role == "user")).filter
              (fun m => truncate100 m.content == e.question)).length)
      ∧ (∀ n : Nat,
          (sortByCountDesc (objectEntries (questionCounts
                (messages.filter (fun m => m.role == "user"))))).filter
              (fun p => p.2 == n)
            = (questionCounts (messages.filter (fun m => m.role == "user"))).filter
                (fun p => p.2 == n)))
  ∧ topQuestions exampleMessages
      = [{ question := "What time is check-in?", count := 3 },
         { question := "Hello", count := 1 }] := by
  constructor
  · intro messages hsafe
    have hent : objectEntries (questionCounts
          (messages.filter (fun m => m.role == "user")))
        = questionCounts (messages.filter (fun m => m.role == "user")) := by
      apply objectEntries_eq_self
      intro p hp
      have hk : p.1 ∈ countKeys (questionCounts
          (messages.filter (fun m => m.role == "user"))) :=
        List.mem_map_of_mem Prod.fst hp
      rcases key_mem_questionCounts _ p.1 hk with ⟨m, hm, he⟩
      rcases List.mem_filter.mp hm with ⟨hmem, hrole⟩
      have hrole2 : m.role = "user" := by simpa using hrole
      have hs := hsafe m hmem hrole2
      rw [he]
      simp only [safePlainKey, Bool.and_eq_true, Bool.not_eq_eq_eq_not, Bool.not_true] at hs
      exact hs.1
    refine ⟨?_, ?_, ?_, ?_⟩
    · simp only [topQuestions, List.length_map, List.length_take]
      exact min_le_left 10 _
    · simp only [topQuestions]
      rw [List.pairwise_map]
      exact List.Pairwise.sublist (List.take_sublist 10 _) (pairwise_sortByCountDesc _)
    · intro e he
      simp only [topQuestions, List.mem_map] at he
      rcases he with ⟨p, hp, rfl⟩
      have hp1 := List.take_subset 10 _ hp
      have hp2 : p ∈ questionCounts (messages.filter (fun m => m.role == "user")) := by
        have := (mem_sortByCountDesc _ p).mp hp1
        rwa [hent] at this
      have h3 : countGet (questionCounts (messages.filter (fun m => m.role == "user"))) p.1
          = some p.2 :=
        countGet_eq_of_mem _ p.1 p.2 (nodup_countKeys_questionCounts _) hp2
      have h4 := countGetD_foldl (messages.filter (fun m => m.role == "user")) [] p.1
      unfold questionCounts at h3
      rw [h3] at h4
      simpa [countGet] using h4
    · intro n
      rw [hent]
      exact filter_sortByCountDesc _ n
  · decide

/-- Claim C8, instantiated: the count served for the distinct question of
the concrete window really is its number of user-message occurrences. -/
theorem top_questions_spec_witness :
    (QuestionEntry.mk "Hello" 1).count
      = ((exampleMessages.filter (fun m => m.role == "user")).filter
          (fun m => truncate100 m.content == (QuestionEntry.mk "Hello" 1).question)).length :=
  (top_questions_spec.1 exampleMessages (by decide)).2.2.1
    (QuestionEntry.mk "Hello" 1) (by decide)

/-- Two user messages whose contents are the integer-like strings "2" and
"1", in that arrival order; both question groups end with count 1, a tie. -/
def numericPrefixMessages : List StoredMessage :=
  [{ chatbotId := "bot1", conversationId := "c1", role := "user"
     content := "2", createdAt := 0 },
   { chatbotId := "bot1", conversationId := "c2", role := "user"
     content := "1", createdAt := 1 }]

/-- Claim C8 counterexample: with user messages "2" then "1" (tied counts),
the claimed stable/insertion-order tie-break would serve the "2" group
first, but `Object.entries` enumerates integer-like keys in ascending
numeric order, so the endpoint serves the "1" group first — the original
claim's tie-break is false of the program. -/
theorem top_questions_counterexample :
    topQuestions numericPrefixMessages
      = [{ question := "1", count := 1 }, { question := "2", count := 1 }] ∧
    topQuestions numericPrefixMessages
      ≠ [{ question := "2", count := 1 }, { question := "1", count := 1 }] := by
  refine ⟨by decide, by decide⟩

/-- Whether a character is a hexadecimal digit. -/
def isHexDigitChar (c : Char) : Bool :=
  ('0' ≤ c && c ≤ '9') || ('a' ≤ c && c ≤ 'f') || ('A' ≤ c && c ≤ 'F')

/-- Numeric value of one hexadecimal digit. -/
def hexVal (c : Char) : Nat :=
  if '0' ≤ c && c ≤ '9' then c.toNat - 48
  else if 'a' ≤ c && c ≤ 'f' then c.toNat - 87
  else c.toNat - 55

/-- Numeric value of a run of hexadecimal digits. -/
def hexDigitsVal (ds : List Char) : Nat :=
  ds.foldl (fun a c => a * 16 + hexVal c) 0

/-- The unsigned part of JS `parseInt` with no explicit radix: a `0x`/`0X`
prefix switches to base 16 with the prefix stripped; otherwise base 10;
the longest run of leading digits of the chosen base is read and an empty
run is NaN — modelled as `none`. -/
def parseUnsignedJS (cs : List Char) : Option Nat :=
  match cs with
  | '0' :: 'x' :: rest =>
      let ds := rest.takeWhile isHexDigitChar
      if ds.isEmpty then none else some (hexDigitsVal ds)
  | '0' :: 'X' :: rest =>
      let ds := rest.takeWhile isHexDigitChar
      if ds.isEmpty then none else some (hexDigitsVal ds)
  | _ =>
      let ds := cs.takeWhile isDigitChar
      if ds.isEmpty then none else some (digitsVal ds)

/-- JS `parseInt(s)` as called at server.js line 749 (no radix argument):
skip leading ASCII whitespace, read an optional sign, then the unsigned
part with automatic hex-prefix detection (`parseIntJS "0x1A" = some 26`,
`parseIntJS "0x" = none`); NaN is modelled as `none`. -/
def parseIntJS (s : String) : Option Int :=
  let cs := s.data.dropWhile (fun c =>
    c = ' ' || c = '\t' || c = '\n' || c = '\r' || c = '\x0b' || c = '\x0c')
  match cs with
  | '-' :: rest => (parseUnsignedJS rest).map (fun n => -(n : Int))
  | '+' :: rest => (parseUnsignedJS rest).map (fun n => (n : Int))
  | _ => (parseUnsignedJS cs).map (fun n => (n : Int))

/-- Milliseconds per day, used to model `startDate.setDate(getDate() - days)`
as subtracting whole days from the current instant (UTC, no DST). -/
def msPerDay : Int := 86400000

/-- The JSON body shapes of the analytics endpoint: the catch handler's
error payload (server.js line 792) or the success payload (783-788). -/
inductive AnalyticsBody
  | failure (error : String)
  | success (totalConversations totalMessages : Nat)
      (topQuestionList : List QuestionEntry) (recentMessages : List StoredMessage)
deriving DecidableEq

/-- An HTTP result of the analytics endpoint. -/
structure AnalyticsResult where
  status : Nat
  body : AnalyticsBody
deriving DecidableEq

/-- Insert a message into a list sorted by descending creation time, after
every message created at the same time or later. -/
def insertByCreatedDesc (x : StoredMessage) : List StoredMessage → List StoredMessage
  | [] => [x]
  | y :: ys => if y.createdAt < x.createdAt then x :: y :: ys else y :: insertByCreatedDesc x ys

/-- The `order by created_at descending` of the messages query (server.js
line 766), modelled as a stable sort. -/
def sortByCreatedDesc (l : List StoredMessage) : List StoredMessage :=
  l.foldl (fun acc x => insertByCreatedDesc x acc) []

/-- The success path of GET /api/analytics/:chatbotId (server.js lines
748-788) for an already-parsed day count: window the two tables by tenant
and start instant, then report totals, topQuestions over the windowed
messages, and the 20 most recent messages. -/
def analyticsCompute (chatbotId : String) (days : Int) (nowMs : Int)
    (conversations : List StoredConversation) (messages : List StoredMessage) :
    AnalyticsResult :=
  let startMs := nowMs - days * msPerDay
  let convs := conversations.filter
    (fun c => c.chatbotId == chatbotId && decide (startMs ≤ c.startedAt))
  let msgs := sortByCreatedDesc (messages.filter
    (fun m => m.chatbotId == chatbotId && decide (startMs ≤ m.createdAt)))
  { status := 200
    body := .success convs.length msgs.length (topQuestions msgs) (msgs.take 20) }

/-- GET /api/analytics/:chatbotId (server.js lines 743-794).  The
destructuring default `days = 7` applies only when the query parameter is
entirely absent.  A present but unparseable days value makes `parseInt`
return NaN, the window start date invalid, and `toISOString()` throw inside
the try block, so the catch handler answers 500 with the error payload. -/
def analyticsHandler (chatbotId : String) (daysParam : Option String) (nowMs : Int)
    (conversations : List StoredConversation) (messages : List StoredMessage) :
    AnalyticsResult :=
  let daysVal : Option Int :=
    match daysParam with
    | none => some 7
    | some s => parseIntJS s
  match daysVal with
  | none => { status := 500, body := .failure "Failed to fetch analytics" }
  | some d => analyticsCompute chatbotId d nowMs conversations messages

/-- Claim C10: the 7-day default window applies exactly when the days query
parameter is entirely absent; a present but unparseable days value yields
the 500 error payload rather than any fallback to the default window; a
present parseable value drives the window itself.  Pinned instances: "abc"
and the bare hex prefix "0x" are unparseable (NaN), while "7" parses to 7
and "0x1A" parses — via parseInt's automatic hex-prefix detection — to a
26-day window. -/
theorem analytics_days_parsing :
    (∀ (chatbotId : String) (nowMs : Int) (conversations : List StoredConversation)
        (messages : List StoredMessage),
      analyticsHandler chatbotId none nowMs conversations messages
        = analyticsCompute chatbotId 7 nowMs conversations messages)
  ∧ (∀ (chatbotId s : String) (nowMs : Int) (conversations : List StoredConversation)
        (messages : List StoredMessage), parseIntJS s = none →
      analyticsHandler chatbotId (some s) nowMs conversations messages
        = { status := 500, body := .failure "Failed to fetch analytics" })
  ∧ (∀ (chatbotId s : String) (d : Int) (nowMs : Int)
        (conversations : List StoredConversation)
        (messages : List StoredMessage), parseIntJS s = some d →
      analyticsHandler chatbotId (some s) nowMs conversations messages
        = analyticsCompute chatbotId d nowMs conversations messages)
  ∧ parseIntJS "abc" = none ∧ parseIntJS "7" = some 7
  ∧ parseIntJS "0x" = none ∧ parseIntJS "0x1A" = some 26 := by
  refine ⟨?_, ?_, ?_, by decide, by decide, by decide, by decide⟩
  · intro chatbotId nowMs conversations messages
    rfl
  · intro chatbotId s nowMs conversations messages hp
    simp [analyticsHandler, hp]
  · intro chatbotId s d nowMs conversations messages hp
    simp [analyticsHandler, hp]

/-- Claim C10, instantiated at the unparseable days value "abc". -/
theorem analytics_days_parsing_witness :
    analyticsHandler "bot1" (some "abc") 0 [] []
      = { status := 500, body := .failure "Failed to fetch analytics" } :=
  analytics_days_parsing.2.1 "bot1" "abc" 0 [] [] (by decide)
